import Mathlib

/-!
Verification of the CarbonSwap agent backend (src/agent.js) against its
design specification.  The JavaScript source is shallowly embedded below:
JavaScript values appearing in the normalizer's fallback chains become
`Option JValue`, the nullish-coalescing operator `??` becomes `jsOr`,
template-literal interpolation becomes `jsInterp` (interpolating a missing
value produces the literal text "undefined", as in JavaScript), and
truthiness tests become `truthy` (0 and "" are falsy).
-/

namespace CarbonSwap

/-- A JavaScript primitive value as it can appear in the metadata fields
read by the result normalizer: a string or a number. -/
inductive JValue where
  | vStr (s : String)
  | vNum (n : Int)
deriving DecidableEq, Repr

/-- JavaScript truthiness of a possibly-missing value: `undefined`, `0`
and `""` are falsy, everything else here is truthy. -/
def truthy : Option JValue → Bool
  | none => false
  | some (.vStr s) => s != ""
  | some (.vNum n) => n != 0

/-- Template-literal interpolation: a missing value prints as the literal
string "undefined" (JavaScript semantics of a template literal applied to
`undefined`). -/
def jsInterp : Option JValue → String
  | none => "undefined"
  | some (.vStr s) => s
  | some (.vNum n) => toString n

/-- The nullish-coalescing operator `a ?? b`. -/
def jsOr (a b : Option α) : Option α :=
  match a with
  | some v => some v
  | none => b

/-- `s.slice(0, n)`: the first `n` characters of `s`. -/
def jsSlice (s : String) (n : Nat) : String :=
  String.mk (s.data.take n)

/-- Character-list splitting on a separator character; splitting the empty
list yields one empty piece, as `"".split("\n")` yields `[""]`. -/
def splitChars (sep : Char) : List Char → List (List Char)
  | [] => [[]]
  | c :: cs =>
    let rest := splitChars sep cs
    if c = sep then [] :: rest
    else
      match rest with
      | [] => [[c]]
      | piece :: pieces => (c :: piece) :: pieces

/-- `s.split(sep)` for a single-character separator. -/
def jsSplit (s : String) (sep : Char) : List String :=
  (splitChars sep s.data).map String.mk

/-- `parts.join(sep)`. -/
def jsJoin (sep : String) : List String → String
  | [] => ""
  | [p] => p
  | p :: ps => p ++ sep ++ jsJoin sep ps

/-- `s.trim()`: strip leading and trailing whitespace. -/
def jsTrim (s : String) : String :=
  String.mk (((s.data.dropWhile Char.isWhitespace).reverse.dropWhile
    Char.isWhitespace).reverse)

/-- The nested raw-fields object of a project record
(`meta.raw` in src/agent.js, lines 99-109). -/
structure RawFields where
  projectName : Option JValue := none
  ProjectName : Option JValue := none
  location : Option JValue := none
  Location : Option JValue := none
  price : Option JValue := none
  Price : Option JValue := none
  carbonSequestration : Option JValue := none
  sequestration : Option JValue := none
  stock : Option JValue := none
  Stock : Option JValue := none
deriving DecidableEq, Repr

/-- The tabular-row object of a CSV record
(`meta.row` in src/agent.js, lines 113-120). -/
structure RowFields where
  nama_lokasi : Option JValue := none
  name : Option JValue := none
  luas_ha : Option JValue := none
  luas : Option JValue := none
  area : Option JValue := none
  karbon_terserap : Option JValue := none
  karbon : Option JValue := none
  carbon : Option JValue := none
  rating_ulasan : Option JValue := none
  rating : Option JValue := none
deriving DecidableEq, Repr

/-- The metadata mapping of a retrieved document (`doc.metadata`),
with the fields the normalizer reads. -/
structure Metadata where
  source : Option String := none
  raw : Option RawFields := none
  row : Option RowFields := none
  projectName : Option JValue := none
  location : Option JValue := none
  _id : Option JValue := none
deriving DecidableEq, Repr

/-- A retrieved document as the normalizer sees it: the `Document` shape
plus the extra top-level fields the code probes on `docAny`. -/
structure Doc where
  metadata : Option Metadata := none
  pageContent : Option String := none
  source : Option String := none
  raw : Option RawFields := none
  row : Option RowFields := none
  _id : Option JValue := none
deriving DecidableEq, Repr

/-- Source discriminator resolution (src/agent.js line 94):
`meta.source ?? docAny.source ?? "unknown"` where `meta = doc.metadata ?? {}`. -/
def resolveSource (doc : Doc) : String :=
  ((jsOr (doc.metadata.getD {}).source doc.source).getD "unknown")

/-- The project-record summary template (src/agent.js line 110):
`Project: ${projectName}` followed by optional pipe-delimited suffixes for
location, sequestration, price and stock, each included only when truthy. -/
def projectSummary (projectName location sequestration price stock : Option JValue) :
    String :=
  "Project: " ++ jsInterp projectName
    ++ (if truthy location then " | Location: " ++ jsInterp location else "")
    ++ (if truthy sequestration then
          " | Est. sequestration: " ++ jsInterp sequestration else "")
    ++ (if truthy price then " | Price: " ++ jsInterp price else "")
    ++ (if truthy stock then " | Stock: " ++ jsInterp stock else "")

/-- The tabular-row summary template (src/agent.js line 121):
`Location: ${nama}` followed by optional suffixes for area (with " ha"),
carbon captured and rating, each included only when truthy. -/
def csvSummary (nama luas karbon rating : Option JValue) : String :=
  "Location: " ++ jsInterp nama
    ++ (if truthy luas then " | Area: " ++ jsInterp luas ++ " ha" else "")
    ++ (if truthy karbon then " | Carbon captured: " ++ jsInterp karbon else "")
    ++ (if truthy rating then " | Rating: " ++ jsInterp rating else "")

/-- A normalized retrieval hit (src/agent.js lines 135-141):
`{ id, score, source, summary, full }`. -/
structure Normalized where
  id : Option JValue
  score : Int
  source : String
  summary : String
  full : Doc
deriving DecidableEq, Repr

/-- The result normalizer: the body of the `for (const r of rawResults)`
loop of src/agent.js lines 89-141, mapping one `(doc, score)` pair to a
`Normalized` record.  Every fallback chain mirrors the source line by line. -/
def normalizeHit (doc : Doc) (score : Int) : Normalized :=
  let meta := doc.metadata.getD {}
  let source := resolveSource doc
  let summary :=
    if source = "dummyProjects" ∨ meta.raw.isSome then
      let raw := (jsOr (jsOr meta.raw (doc.metadata.bind Metadata.raw)) doc.raw).getD {}
      let projectName :=
        jsOr (jsOr (jsOr raw.projectName raw.ProjectName) meta.projectName)
          (doc.pageContent.map fun s => JValue.vStr (jsSlice s 80))
      let location := jsOr (jsOr raw.location raw.Location) meta.location
      let price := jsOr raw.price raw.Price
      let sequestration :=
        jsOr (jsOr raw.carbonSequestration raw.carbonSequestration) raw.sequestration
      let stock := jsOr raw.stock raw.Stock
      projectSummary projectName location sequestration price stock
    else if source = "csv" ∨ meta.row.isSome then
      let row := (jsOr meta.row doc.row).getD {}
      let nama :=
        jsOr (jsOr (jsOr row.nama_lokasi row.nama_lokasi) row.name)
          (doc.pageContent.map fun s => JValue.vStr (jsSlice s 80))
      let luas := jsOr (jsOr row.luas_ha row.luas) row.area
      let karbon := jsOr (jsOr row.karbon_terserap row.karbon) row.carbon
      let rating := jsOr row.rating_ulasan row.rating
      csvSummary nama luas karbon rating
    else if source = "markdown" then
      "Doc: " ++ jsTrim (jsJoin " " ((jsSplit (doc.pageContent.getD "") '\n').take 3))
    else
      jsSlice (doc.pageContent.getD "") 150
  { id := jsOr (jsOr (doc.metadata.bind Metadata._id) doc._id) meta._id
    score := score
    source := source
    summary := summary
    full := doc }

/-- An error thrown by an upstream call, as inspected by the retry helper
and the tool-level catch: optional numeric `status` and `code`, and the
`message` carried by the error object. -/
structure JsError where
  status : Option Int := none
  code : Option Int := none
  message : String := ""
deriving DecidableEq, Repr

/-- Rate-limit detection (src/agent.js line 23):
`err?.status === 429 || err?.code === 429`. -/
def isRate (err : JsError) : Bool :=
  err.status == some 429 || err.code == some 429

/-- What `retryWithBackoff` can throw: either a rethrown upstream error
(line 30) or the terminal `Error("Max retries exceeded")` (line 33). -/
inductive RErr where
  | thrown (e : JsError)
  | maxRetriesExceeded
deriving DecidableEq, Repr

/-- `err?.message ?? String(err)` as applied to what `retryWithBackoff`
throws: the upstream error's own message, or the terminal error's text. -/
def errMessage : RErr → String
  | .thrown e => e.message
  | .maxRetriesExceeded => "Max retries exceeded"

/-- The body of the `for (let attempt = 1; attempt <= maxRetries; attempt++)`
loop of src/agent.js lines 18-32.  `fn attempt` is the outcome of the
operation on that (1-indexed) attempt; `fuel` is the number of loop
iterations still permitted by the loop condition, so the `fuel = 0` case is
the normal loop exit that reaches `throw new Error("Max retries exceeded")`
(line 33).  Returns the outcome together with the number of times the
operation was invoked. -/
def retryGo (fn : Int → Except JsError α) (maxRetries : Int) :
    Int → Nat → Except RErr α × Nat
  | _, 0 => (.error .maxRetriesExceeded, 0)
  | attempt, fuel + 1 =>
    match fn attempt with
    | .ok v => (.ok v, 1)
    | .error err =>
      if isRate err = true ∧ attempt < maxRetries then
        let r := retryGo fn maxRetries (attempt + 1) fuel
        (r.1, r.2 + 1)
      else
        (.error (.thrown err), 1)

/-- `retryWithBackoff(fn, maxRetries = 3)` (src/agent.js lines 17-34).
The loop runs for attempts `1 .. maxRetries`, so starting at attempt 1 it
has `maxRetries.toNat` iterations available (none when `maxRetries ≤ 0`). -/
def retryWithBackoff (fn : Int → Except JsError α) (maxRetries : Int := 3) :
    Except RErr α × Nat :=
  retryGo fn maxRetries 1 maxRetries.toNat

/-- The result envelope of the `vector_search` tool: one of the three
object literals returned at src/agent.js lines 68-72, 143-148 and 152-156. -/
inductive Envelope where
  | emptyDb (message : String) (count : Nat)
  | searchError (details query : String)
  | success (results : List Normalized) (searchType query : String) (count : Nat)
deriving DecidableEq, Repr

/-- The keys of the JSON object each envelope serializes to, read off the
three object literals in the source. -/
def Envelope.keys : Envelope → List String
  | .emptyDb .. => ["error", "message", "count"]
  | .searchError .. => ["error", "details", "query"]
  | .success .. => ["results", "searchType", "query", "count"]

/-- The value of the `error` key of each envelope (`none` for the success
envelope, which has no such key). -/
def Envelope.errorKind : Envelope → Option String
  | .emptyDb .. => some "empty_db"
  | .searchError .. => some "search_error"
  | .success .. => none

/-- The `vector_search` tool body (src/agent.js lines 63-157).  `total` is
the collection's document count; `searchFn attempt` is the outcome of
`vectorStore.similaritySearchWithScore(query, n)` on the given retry
attempt (the external call is an oracle indexed by attempt).  The second
component counts how many times the similarity search was invoked — the
embeddings client is instantiated on exactly the same path, so it is zero
iff no embedding call happened.  `n` flows only into the external search
call, which `searchFn` already closes over. -/
def vectorSearchTool (query : String) (n : Int) (total : Nat)
    (searchFn : Int → Except JsError (List (Doc × Int))) : Envelope × Nat :=
  if total = 0 then
    (.emptyDb "No indexed documents found" 0, 0)
  else
    let retried := retryWithBackoff searchFn 3
    match retried.1 with
    | .ok rawResults =>
      let normalized := rawResults.map fun r => normalizeHit r.1 r.2
      (.success normalized "vector" query normalized.length, retried.2)
    | .error e =>
      (.searchError (errMessage e) query, retried.2)

/-- One response of the language model inside a decide/execute cycle:
either it requests tool invocations or it answers with final content. -/
inductive ModelResponse where
  | requestTools
  | answer (content : String)
deriving DecidableEq, Repr

/-- The recursion limit configured on the compiled workflow
(src/agent.js line 233: `recursionLimit: 12`). -/
def recursionLimit : Nat := 12

/-- Outcome of one turn of the Turn Controller. -/
inductive TurnOutcome where
  | finalResponse (content : String)
  | recursionCapError
deriving DecidableEq, Repr

/-- Modelled from the spec: the decide/execute loop of the Turn Controller
(spec §4.4).  The loop itself is executed by the agent-graph framework and
is not part of this repository's sources; src/agent.js only configures the
routing function `shouldContinue` (answer → end, tool request → tools →
agent) and the recursion limit.  `respond cycle` is the model's response on
the given (1-indexed) decide cycle; `fuel` is the number of cycles the cap
still allows.  Returns the outcome and the number of decide cycles run. -/
def turnLoop (respond : Nat → ModelResponse) : Nat → Nat → TurnOutcome × Nat
  | _, 0 => (.recursionCapError, 0)
  | cycle, fuel + 1 =>
    match respond cycle with
    | .answer c => (.finalResponse c, 1)
    | .requestTools =>
      let r := turnLoop respond (cycle + 1) fuel
      (r.1, r.2 + 1)

/-- Modelled from the spec: one invocation of the Turn Controller
(spec §4.4), starting at cycle 1 with the configured recursion limit. -/
def callAgentTurn (respond : Nat → ModelResponse) : TurnOutcome × Nat :=
  turnLoop respond 1 recursionLimit

/-! ### Concrete inputs used by counterexamples and witnesses -/

/-- A rate-limit error signalled through the `status` field. -/
def e429s : JsError := { status := some 429, message := "rate limited" }

/-- A rate-limit error signalled through the `code` field. -/
def e429c : JsError := { code := some 429, message := "quota exhausted" }

/-- An operation that fails with a status-429 error on every attempt. -/
def fnRateU : Int → Except JsError Unit := fun _ => .error e429s

/-- A search oracle that fails with a status-429 error on every attempt. -/
def fnRate : Int → Except JsError (List (Doc × Int)) := fun _ => .error e429s

/-! ### Helper lemmas -/

theorem truthy_none : truthy none = false := rfl

theorem string_append_length_pos (s t : String) (h : 0 < s.length) :
    0 < (s ++ t).length := by
  rw [String.length_append]
  omega

theorem jsSlice_length (s : String) (n : Nat) :
    (jsSlice s n).length = min n s.length := by
  unfold jsSlice
  show (s.data.take n).length = min n s.data.length
  exact List.length_take n s.data

theorem retryGo_rate_then_ok {α : Type} (fn : Int → Except JsError α)
    (maxRetries : Int) (v : α) :
    ∀ (k : Nat) (attempt : Int) (fuel : Nat),
      (∀ i : Nat, i < k → ∃ e, fn (attempt + i) = .error e ∧ isRate e = true) →
      fn (attempt + k) = .ok v →
      (∀ i : Nat, i < k → attempt + i < maxRetries) →
      k < fuel →
      retryGo fn maxRetries attempt fuel = (.ok v, k + 1) := by
  intro k
  induction k with
  | zero =>
    intro attempt fuel _ hok _ hfuel
    cases fuel with
    | zero => omega
    | succ f =>
      simp only [Nat.cast_zero, add_zero] at hok
      simp [retryGo, hok]
  | succ k ih =>
    intro attempt fuel herr hok hlt hfuel
    cases fuel with
    | zero => omega
    | succ f =>
      obtain ⟨e, he, hrate⟩ := herr 0 (by omega)
      rw [show attempt + ((0 : Nat) : Int) = attempt by push_cast; ring] at he
      have hguard : attempt < maxRetries := by
        have h0 := hlt 0 (by omega)
        simpa using h0
      have hrec := ih (attempt + 1) f
        (by
          intro i hi
          obtain ⟨e', he', hr'⟩ := herr (i + 1) (by omega)
          refine ⟨e', ?_, hr'⟩
          rw [show attempt + 1 + (i : Int) = attempt + ((i + 1 : Nat) : Int) by
            push_cast; ring]
          exact he')
        (by
          rw [show attempt + 1 + (k : Int) = attempt + ((k + 1 : Nat) : Int) by
            push_cast; ring]
          exact hok)
        (by
          intro i hi
          have hi1 := hlt (i + 1) (by omega)
          have hcast : attempt + ((i + 1 : Nat) : Int) = attempt + 1 + (i : Int) := by
            push_cast; ring
          omega)
        (by omega)
      simp [retryGo, he, hrate, hguard, hrec]

/-! ### C1 — exhaustion on persistent rate-limiting -/

/-- C1 counterexample: with an operation that fails with a rate-limit error
on every attempt and maxAttempts = 3, `retryWithBackoff` invokes it exactly
3 times but fails with the ORIGINAL rate-limit error rethrown from the
final attempt, not with the terminal "Max retries exceeded" error, which
the loop structure makes unreachable for a positive retry budget. -/
theorem retry_persistent_rate_claim_cex :
    retryWithBackoff fnRateU 3 = (.error (.thrown e429s), 3)
    ∧ ((RErr.thrown e429s) == RErr.maxRetriesExceeded) = false :=
  ⟨rfl, rfl⟩

/-- C1 (amended): for every operation that fails with a rate-limit error
(status or code 429) on each of the first three attempts, `retryWithBackoff`
with maxAttempts = 3 invokes the operation exactly 3 times and fails with
the rate-limit error of the final attempt. -/
theorem retry_persistent_rate_throws_last_error {α : Type}
    (fn : Int → Except JsError α) (e1 e2 e3 : JsError)
    (h1 : fn 1 = .error e1) (r1 : isRate e1 = true)
    (h2 : fn 2 = .error e2) (r2 : isRate e2 = true)
    (h3 : fn 3 = .error e3) (r3 : isRate e3 = true) :
    retryWithBackoff fn 3 = (.error (.thrown e3), 3) := by
  norm_num [retryWithBackoff, retryGo, h1, r1, h2, r2, h3, r3]

/-- C1 witness: a code-429 error repeated on all three attempts. -/
theorem retry_persistent_rate_throws_last_error_witness :
    retryWithBackoff (fun _ => .error e429c : Int → Except JsError Unit) 3
      = (.error (.thrown e429c), 3) :=
  retry_persistent_rate_throws_last_error _ e429c e429c e429c
    rfl rfl rfl rfl rfl rfl

/-! ### C6 — k rate-limit failures then success -/

/-- C6: for every operation that fails with a rate-limit error on exactly
the first k attempts (k < maxAttempts) and succeeds on attempt k+1,
`retryWithBackoff` returns the success value and the operation is invoked
exactly k+1 times. -/
theorem retry_k_rate_failures_then_success {α : Type}
    (fn : Int → Except JsError α) (maxRetries : Int) (k : Nat) (v : α)
    (herr : ∀ i : Nat, i < k → ∃ e, fn (1 + i) = .error e ∧ isRate e = true)
    (hok : fn (1 + k) = .ok v)
    (hk : (k : Int) < maxRetries) :
    retryWithBackoff fn maxRetries = (.ok v, k + 1) := by
  unfold retryWithBackoff
  refine retryGo_rate_then_ok fn maxRetries v k 1 maxRetries.toNat herr hok ?_ ?_
  · intro i hi
    have : (i : Int) < (k : Int) := by exact_mod_cast hi
    omega
  · omega

/-- C6 witness: one rate-limit failure then success with budget 3 returns
the value after exactly 2 invocations. -/
theorem retry_k_rate_failures_then_success_witness :
    retryWithBackoff (fun i => if i = 1 then .error e429s else .ok 7) 3
      = (.ok 7, 2) :=
  retry_k_rate_failures_then_success _ 3 1 7
    (by
      intro i hi
      have h0 : i = 0 := by omega
      subst h0
      exact ⟨e429s, rfl, rfl⟩)
    rfl
    (by norm_num)

/-! ### C9 — non-positive retry budget -/

/-- C9: for every operation, `retryWithBackoff` with a non-positive
maxRetries fails with the terminal "Max retries exceeded" error without
invoking the operation even once: the retry loop body is never entered. -/
theorem retry_nonpositive_budget_no_invocation {α : Type}
    (fn : Int → Except JsError α) (maxRetries : Int) (h : maxRetries ≤ 0) :
    retryWithBackoff fn maxRetries = (.error .maxRetriesExceeded, 0) := by
  unfold retryWithBackoff
  rw [show maxRetries.toNat = 0 by omega]
  rfl

/-- C9 witness: budget 0 throws the terminal error with zero invocations. -/
theorem retry_nonpositive_budget_no_invocation_witness :
    retryWithBackoff fnRateU 0 = (.error .maxRetriesExceeded, 0) :=
  retry_nonpositive_budget_no_invocation fnRateU 0 (by norm_num)

/-! ### C2 — normalizer totality and non-empty summary -/

/-- A hit with no metadata fields at all and no content. -/
def docEmpty : Doc := {}

/-- C2 counterexample: a hit with no metadata fields and empty content
falls into the fallback branch, whose summary is the first 150 characters
of the raw content — here the empty string, so the summary has length 0,
not length > 0. -/
theorem normalize_empty_hit_summary_cex :
    (normalizeHit docEmpty 0).summary = ""
    ∧ (normalizeHit docEmpty 0).summary.length = 0 :=
  ⟨rfl, rfl⟩

/-- C2 (amended): the normalizer is total (a Lean function, it never
raises); when no source-specific fields are present the summary is exactly
the first 150 characters of the raw content, and the summary is non-empty
whenever the raw content is non-empty — but a fallback-branch hit with
empty content yields an empty summary. -/
theorem normalize_total_fallback (doc : Doc) (score : Int) :
    (resolveSource doc ≠ "dummyProjects" →
     resolveSource doc ≠ "csv" →
     resolveSource doc ≠ "markdown" →
     (doc.metadata.getD {}).raw = none →
     (doc.metadata.getD {}).row = none →
     (normalizeHit doc score).summary = jsSlice (doc.pageContent.getD "") 150)
    ∧ (0 < (doc.pageContent.getD "").length →
       0 < (normalizeHit doc score).summary.length) := by
  constructor
  · intro h1 h2 h3 h4 h5
    simp [normalizeHit, h1, h2, h3, h4, h5]
  · intro hc
    simp only [normalizeHit]
    split
    · exact string_append_length_pos _ _ (string_append_length_pos _ _
        (string_append_length_pos _ _ (string_append_length_pos _ _
          (string_append_length_pos "Project: " _ (by decide)))))
    · split
      · exact string_append_length_pos _ _ (string_append_length_pos _ _
          (string_append_length_pos _ _
            (string_append_length_pos "Location: " _ (by decide))))
      · split
        · exact string_append_length_pos "Doc: " _ (by decide)
        · rw [jsSlice_length]
          omega

/-- A hit with content only, hitting the fallback branch. -/
def docHello : Doc := { pageContent := some "hello" }

/-- C2 witness: a metadata-free hit with content "hello" gets the
150-character excerpt as its summary, which is non-empty. -/
theorem normalize_total_fallback_witness :
    (normalizeHit docHello 0).summary = jsSlice "hello" 150
    ∧ 0 < (normalizeHit docHello 0).summary.length :=
  ⟨(normalize_total_fallback docHello 0).1 (by decide) (by decide) (by decide)
      rfl rfl,
    (normalize_total_fallback docHello 0).2 (by decide)⟩

/-! ### C4 — missing fields and the name placeholder -/

/-- A project-record hit (the metadata carries a raw object) for which no
name can be resolved: no name fields and no content. -/
def docNoName : Doc := { metadata := some { raw := some {} } }

/-- C4 counterexample: a project-record hit with no resolvable name
interpolates the missing name as the literal "undefined", so the summary
carries a placeholder token after "Project: ", contrary to the claim. -/
theorem normalize_missing_name_cex :
    (normalizeHit docNoName 0).summary = "Project: undefined" :=
  rfl

/-- C4 (amended): the normalizer never throws and every missing OPTIONAL
field is silently omitted from the summary, but the name is interpolated
unconditionally: a project-record hit for which no name can be resolved
yields the literal placeholder "undefined" after "Project: ". -/
theorem normalize_missing_name_placeholder (doc : Doc) (m : Metadata)
    (raw : RawFields) (score : Int)
    (hm : doc.metadata = some m) (hraw : m.raw = some raw)
    (hpn : raw.projectName = none) (hPN : raw.ProjectName = none)
    (hmpn : m.projectName = none) (hpc : doc.pageContent = none)
    (hl : raw.location = none) (hL : raw.Location = none)
    (hml : m.location = none)
    (hp : raw.price = none) (hP : raw.Price = none)
    (hcs : raw.carbonSequestration = none) (hsq : raw.sequestration = none)
    (hst : raw.stock = none) (hSt : raw.Stock = none) :
    (normalizeHit doc score).summary = "Project: undefined" := by
  simp [normalizeHit, projectSummary, jsOr, jsInterp, truthy, hm, hraw, hpn,
    hPN, hmpn, hpc, hl, hL, hml, hp, hP, hcs, hsq, hst, hSt]

/-- A project-record hit discriminated by source, with an empty raw
object, no name fields and no content. -/
def docNoName2 : Doc :=
  { metadata := some { source := some "dummyProjects", raw := some {} } }

/-- C4 witness: the amended claim at a source-discriminated project hit. -/
theorem normalize_missing_name_placeholder_witness :
    (normalizeHit docNoName2 0).summary = "Project: undefined" :=
  normalize_missing_name_placeholder docNoName2
    { source := some "dummyProjects", raw := some {} } {} 0
    rfl rfl rfl rfl rfl rfl rfl rfl rfl rfl rfl rfl rfl rfl rfl

/-! ### C10 — falsy optional fields are omitted -/

/-- C10: in the project-record and tabular-row summary templates, an
optional field whose value is 0 or the empty string is treated exactly as
an absent field: its suffix is omitted from the summary.  Stated for each
of the seven optional fields (location, sequestration, price, stock, area,
carbon, rating). -/
theorem falsy_optional_field_suffix_omitted (v : JValue)
    (hv : v = .vNum 0 ∨ v = .vStr "")
    (name loc seq price stock nama luas karbon rating : Option JValue) :
    projectSummary name (some v) seq price stock
      = projectSummary name none seq price stock
    ∧ projectSummary name loc (some v) price stock
      = projectSummary name loc none price stock
    ∧ projectSummary name loc seq (some v) stock
      = projectSummary name loc seq none stock
    ∧ projectSummary name loc seq price (some v)
      = projectSummary name loc seq price none
    ∧ csvSummary nama (some v) karbon rating
      = csvSummary nama none karbon rating
    ∧ csvSummary nama luas (some v) rating
      = csvSummary nama luas none rating
    ∧ csvSummary nama luas karbon (some v)
      = csvSummary nama luas karbon none := by
  have hfalse : truthy (some v) = false := by
    rcases hv with h | h <;> subst h <;> rfl
  refine ⟨?_, ?_, ?_, ?_, ?_, ?_, ?_⟩ <;>
    simp [projectSummary, csvSummary, hfalse, truthy_none, String.append_empty]

/-- C10 witness: a zero-valued location is omitted from a project summary
and a zero-valued area from a row summary. -/
theorem falsy_optional_field_suffix_omitted_witness :
    (JValue.vNum 0 = JValue.vNum 0 ∨ JValue.vNum 0 = JValue.vStr "")
    ∧ (projectSummary (some (.vStr "P")) (some (.vNum 0)) none none none
        = projectSummary (some (.vStr "P")) none none none none
      ∧ projectSummary (some (.vStr "P")) none (some (.vNum 0)) none none
        = projectSummary (some (.vStr "P")) none none none none
      ∧ projectSummary (some (.vStr "P")) none none (some (.vNum 0)) none
        = projectSummary (some (.vStr "P")) none none none none
      ∧ projectSummary (some (.vStr "P")) none none none (some (.vNum 0))
        = projectSummary (some (.vStr "P")) none none none none
      ∧ csvSummary (some (.vStr "L")) (some (.vNum 0)) none none
        = csvSummary (some (.vStr "L")) none none none
      ∧ csvSummary (some (.vStr "L")) none (some (.vNum 0)) none
        = csvSummary (some (.vStr "L")) none none none
      ∧ csvSummary (some (.vStr "L")) none none (some (.vNum 0))
        = csvSummary (some (.vStr "L")) none none none) :=
  ⟨Or.inl rfl,
    falsy_optional_field_suffix_omitted (.vNum 0) (Or.inl rfl)
      (some (.vStr "P")) none none none none (some (.vStr "L")) none none none⟩

/-! ### C3 — error envelope shapes -/

/-- C3 counterexample: the empty-collection envelope has keys
{error, message, count} and carries NO query field, and the search-failure
envelope has keys {error, details, query} and carries NO message field
(the message sits under "details") — so neither error envelope has the
claimed {error kind, message, query} shape. -/
theorem error_envelope_shape_cex :
    (vectorSearchTool "q" 6 0 fnRate).1 = .emptyDb "No indexed documents found" 0
    ∧ (vectorSearchTool "q" 6 0 fnRate).1.keys.contains "query" = false
    ∧ (vectorSearchTool "q" 6 5 fnRate).1 = .searchError "rate limited" "q"
    ∧ (vectorSearchTool "q" 6 5 fnRate).1.keys.contains "message" = false :=
  ⟨rfl, rfl, rfl, rfl⟩

/-- C3 (amended): the empty-collection envelope has the shape
{error, message, count} — it does not carry the query — while the
search-failure envelope has the shape {error, details, query}, carrying
the original query and the error's message under the key "details". -/
theorem error_envelope_shapes (q : String) (n : Int) (total : Nat)
    (fn : Int → Except JsError (List (Doc × Int))) :
    ((vectorSearchTool q n 0 fn).1.keys = ["error", "message", "count"])
    ∧ (total ≠ 0 → ∀ e, (retryWithBackoff fn 3).1 = .error e →
        (vectorSearchTool q n total fn).1 = .searchError (errMessage e) q
        ∧ (vectorSearchTool q n total fn).1.keys = ["error", "details", "query"]) := by
  constructor
  · rfl
  · intro h e he
    constructor <;> simp [vectorSearchTool, h, he, Envelope.keys]

/-- C3 witness: the amended claim at a concrete failing search. -/
theorem error_envelope_shapes_witness :
    (vectorSearchTool "w" 6 2 fnRate).1 = .searchError "rate limited" "w"
    ∧ (vectorSearchTool "w" 6 2 fnRate).1.keys = ["error", "details", "query"] :=
  (error_envelope_shapes "w" 6 2 fnRate).2 (by decide) (.thrown e429s) rfl

/-! ### C5 — the tool always returns a structured envelope -/

/-- C5: for every query, count and search outcome, the Retrieval Tool
returns a structured envelope — the empty-collection envelope, a
search_error envelope carrying the error's message and the original query,
or the success envelope with the normalized results; it never raises
(it is a total function into `Envelope`). -/
theorem tool_always_returns_envelope (q : String) (n : Int) (total : Nat)
    (fn : Int → Except JsError (List (Doc × Int))) :
    (vectorSearchTool q n total fn).1 = .emptyDb "No indexed documents found" 0
    ∨ (∃ e, (retryWithBackoff fn 3).1 = .error e
        ∧ (vectorSearchTool q n total fn).1 = .searchError (errMessage e) q)
    ∨ (∃ hits, (retryWithBackoff fn 3).1 = .ok hits
        ∧ (vectorSearchTool q n total fn).1
          = .success (hits.map fun r => normalizeHit r.1 r.2) "vector" q
              (hits.map fun r => normalizeHit r.1 r.2).length) := by
  by_cases h : total = 0
  · left
    simp [vectorSearchTool, h]
  · cases he : (retryWithBackoff fn 3).1 with
    | error e =>
      right; left
      exact ⟨e, rfl, by simp [vectorSearchTool, h, he]⟩
    | ok hits =>
      right; right
      exact ⟨hits, rfl, by simp [vectorSearchTool, h, he]⟩

/-! ### C7 — empty collection short-circuits -/

/-- C7: for every query, result count and search oracle, a zero document
count makes the Retrieval Tool return the empty_db envelope (error kind
"empty_db", count 0) immediately, with zero embedding/search invocations. -/
theorem tool_empty_collection_short_circuit (q : String) (n : Int)
    (fn : Int → Except JsError (List (Doc × Int))) :
    (vectorSearchTool q n 0 fn).1 = .emptyDb "No indexed documents found" 0
    ∧ (vectorSearchTool q n 0 fn).1.errorKind = some "empty_db"
    ∧ (vectorSearchTool q n 0 fn).2 = 0 :=
  ⟨rfl, rfl, rfl⟩

/-! ### C8 — the recursion cap of the turn controller -/

/-- C8: if the model requests tool invocations on every decide cycle, the
Turn Controller does not loop forever: it terminates with the
recursion-cap error after exactly 12 decide/execute cycles. -/
theorem turn_controller_recursion_cap (respond : Nat → ModelResponse)
    (h : ∀ i, respond i = .requestTools) :
    callAgentTurn respond = (.recursionCapError, 12) := by
  simp [callAgentTurn, recursionLimit, turnLoop, h]

/-- C8 witness: the always-tool-requesting model. -/
theorem turn_controller_recursion_cap_witness :
    callAgentTurn (fun _ => .requestTools) = (.recursionCapError, 12) :=
  turn_controller_recursion_cap (fun _ => .requestTools) (fun _ => rfl)

end CarbonSwap
